import Mathlib

/-!
Verification development for the glusterfs-containers-tests repository.

The Lean definitions below are a shallow embedding of the Python test code:

* `cnslibs/common/heketi_libs.py` (`HeketiBaseClass.setUpClass`,
  `HeketiBaseClass.delete_volumes`),
* `tests/functional/common/provisioning/test_pv_resize.py`
  (`TestPvResizeClass.setUpClass`, `setUp`, `_pv_resize`,
  `test_pv_resize_try_shrink_pv_size`),
* `tests/functional/gluster_stability/test_restart_gluster_services.py`
  (`deploy_resouces`, `get_heketi_block_volumes`,
  `test_restart_services_provision_volume_and_run_io`),
* `tests/functional/heketi/test_disabling_device.py` and
  `tests/functional/heketi/test_volume_creation.py`.

External collaborators (heketi CLI, OpenShift CLI) are modelled as
environment parameters supplying the observable results of each call; the
test code itself is translated statement by statement.  Side effects are
modelled as explicit traces of `Action` values, and a Boolean flag records
whether execution continues (Python exceptions/failed assertions abort a
test and stop producing actions).
-/

namespace GlusterTests

/-! ## Python string primitives, embedded over `List Char` -/

/-- The whitespace characters stripped by Python `str.strip()`. -/
def pyIsSpace (c : Char) : Bool :=
  c = ' ' || c = '\t' || c = '\n' || c = '\r' || c = '\x0b' || c = '\x0c'

/-- `str.strip()` on the underlying character list. -/
def pyStripChars (l : List Char) : List Char :=
  ((l.dropWhile pyIsSpace).reverse.dropWhile pyIsSpace).reverse

/-- Python `str.strip()`. -/
def pyStrip (s : String) : String :=
  String.mk (pyStripChars s.data)

/-- Python `str.lower()` (ASCII case mapping, which is all the code relies on). -/
def pyLower (s : String) : String :=
  String.mk (s.data.map Char.toLower)

/-- `str.split("\n")` on the underlying character list. -/
def splitOnNlChars : List Char → List (List Char)
  | [] => [[]]
  | c :: cs =>
    if c = '\n' then [] :: splitOnNlChars cs
    else
      match splitOnNlChars cs with
      | [] => [[c]]
      | l :: ls => (c :: l) :: ls

/-- Python `s.split("\n")`. -/
def pySplitNl (s : String) : List String :=
  (splitOnNlChars s.data).map String.mk

/-- Python `needle in hay` for strings (substring containment). -/
def pyIn (needle hay : String) : Prop :=
  needle.data <:+: hay.data

instance (needle hay : String) : Decidable (pyIn needle hay) :=
  inferInstanceAs (Decidable (needle.data <:+: hay.data))

/-! ## Failure kinds

Python exceptions raised by the test code: `AssertionError` (failed
assertions), `unittest` skips, and the suite's own `ConfigError` and
`ExecutionError` exception classes. -/

inductive FailKind where
  | assertionFailure
  | skipSignal
  | configError
  | executionError
deriving DecidableEq

/-! ## `HeketiBaseClass.setUpClass` (cnslibs/common/heketi_libs.py, lines 46-55)

Only the two fallible checks are modelled: `hello_heketi` (whose falsy
result raises `ConfigError`) and `switch_oc_project` (whose falsy result
raises `ExecutionError`). -/

/-- The checks of `HeketiBaseClass.setUpClass`: raises `ConfigError` when the
heketi server is not alive, `ExecutionError` when switching the oc project
fails. -/
def heketi_setUpClass_check (hello_ok : Bool) (switch_ok : Bool) :
    Except FailKind Unit :=
  if hello_ok = false then Except.error FailKind.configError
  else if switch_ok = false then Except.error FailKind.executionError
  else Except.ok ()

/-! ## `HeketiBaseClass.delete_volumes` (cnslibs/common/heketi_libs.py, lines 70-91) -/

/-- The `volume_ids` argument: either a single id (anything that is not a
`list`, `set` or `tuple`) or a collection of ids. -/
inductive VolumeIds where
  | single (id : String)
  | coll (ids : List String)

/-- The loop body of `delete_volumes`: folds over the ids, recording every id
passed to `heketi_volume_delete` (first component) and every id whose delete
output does not contain `"Volume <id> deleted"` (second component,
`errored_ids`).  `heketi_out` gives the output of `heketi_volume_delete` for
each id. -/
def delete_volumes_scan (heketi_out : String → String) (ids : List String) :
    List String × List String :=
  ids.foldl
    (fun acc volume_id =>
      (acc.1 ++ [volume_id],
       if pyIn ("Volume " ++ volume_id ++ " deleted") (heketi_out volume_id) then acc.2
       else acc.2 ++ [volume_id]))
    ([], [])

/-- `HeketiBaseClass.delete_volumes`.  Returns the list of ids on which
`heketi_volume_delete` was invoked together with the outcome: `ExecutionError`
carrying the failure message when `errored_ids` is non-empty, normal return
otherwise. -/
def delete_volumes (heketi_out : String → String) (volume_ids : VolumeIds) :
    List String × Except (FailKind × String) Unit :=
  let ids := match volume_ids with
    | VolumeIds.single v => [v]
    | VolumeIds.coll vs => vs
  let r := delete_volumes_scan heketi_out ids
  (r.1,
   if r.2 = [] then Except.ok ()
   else Except.error (FailKind.executionError,
     "Failed to delete following heketi volumes: " ++ String.intercalate ",\n" r.2))

/-! ## Actions and cleanups

Side effects performed by the tests, in program order.  `addCleanup op`
records a callback registered through `unittest`'s `addCleanup`. -/

inductive CleanupOp where
  | deleteRes (kind name : String)
  | deleteVolume (id : String)
  | enableNode (id : String)
  | enableDevice (id : String)
  | scaleDown (dc : String)
  | waitAbsence (kind name : String)
deriving DecidableEq

inductive Action where
  | createSecret (name : String)
  | createSC (name : String)
  | createPVC (name : String) (size : Nat)
  | createDC (name : String)
  | createHeketiVolume (id : String)
  | disableNode (id : String)
  | disableDevice (id : String)
  | enableNode (id : String)
  | enableDevice (id : String)
  | addCleanup (op : CleanupOp)
  | restartService (node svc : String)
  | waitServiceStatus (node svc status sub : String)
  | validateVolumes
  | resizePVC (size : Nat)
  | other (tag : String)
deriving DecidableEq

/-- Sequencing of two traced computations: the second one runs only when the
first did not abort (Python exception / failed assertion). -/
def andThen (x y : List Action × Bool) : List Action × Bool :=
  if x.2 then (x.1 ++ y.1, y.2) else x

/-- `try ... finally ...`: the finally block runs whether or not the body
aborted; execution continues only when both succeeded. -/
def tryFinallyActs (body fin : List Action × Bool) : List Action × Bool :=
  (body.1 ++ fin.1, body.2 && fin.2)

/-! ## Heketi topology data (results of `heketi_node_info` etc.) -/

/-- One entry of `node_info["devices"]`: its id, its `state` string, and
`device["storage"]["free"]` in KB. -/
structure HDevice where
  id : String
  state : String
  storage_free : Nat
deriving DecidableEq

/-- The result of `heketi_ops.heketi_node_info(...)`: the node `state` string
and its device list. -/
structure HNodeInfo where
  state : String
  devices : List HDevice
deriving DecidableEq

/-! ## `TestPvResizeClass._pv_resize`, node selection
(tests/functional/common/provisioning/test_pv_resize.py, lines 97-141) -/

/-- `min_free_space = min_free_space_gb * 1024**2` with `min_free_space_gb = 3`. -/
def min_free_space : Nat := 3 * 1024 ^ 2

/-- The inner device loop of `_pv_resize` for one node: walks
`node_info['devices']`, skipping offline devices, disabling (with an
`addCleanup` re-enable) every device that is redundant (its node was already
selected) or too small, and otherwise recording `nodes[node_id] = free_space`.
`deviceDisableOk` gives the truthiness of each `heketi_device_disable`
result; a falsy result fails `self.assertTrue(out)` (line 128) and aborts the
test.  Returns the updated `nodes` map (as an association list), the emitted
actions, and whether the loop completed without aborting. -/
def pvResizeDevLoop (deviceDisableOk : String → Bool) (node_id : String)
    (devs : List HDevice) (nodes : List (String × Nat)) :
    List (String × Nat) × List Action × Bool :=
  match devs with
  | [] => (nodes, [], true)
  | device :: rest =>
    if pyLower device.state ≠ "online" then
      pvResizeDevLoop deviceDisableOk node_id rest nodes
    else
      if node_id ∈ nodes.map Prod.fst ∨ device.storage_free < min_free_space then
        if deviceDisableOk device.id then
          let r := pvResizeDevLoop deviceDisableOk node_id rest nodes
          (r.1,
           Action.disableDevice device.id ::
             Action.addCleanup (CleanupOp.enableDevice device.id) :: r.2.1,
           r.2.2)
        else (nodes, [Action.other "assert_device_disable_failed"], false)
      else
        pvResizeDevLoop deviceDisableOk node_id rest (nodes ++ [(node_id, device.storage_free)])

/-- The outer node loop of `_pv_resize`: walks `node_id_list`, skipping nodes
that are offline or deviceless, disabling (with an `addCleanup` re-enable)
every node encountered after three nodes were already selected, and running
the device loop.  `nodeDisableOk` gives the truthiness of each
`heketi_node_disable` result; a falsy result fails `self.assertTrue(out)`
(line 117) and aborts the test, as does a device-disable failure inside the
device loop. -/
def pvResizeNodeLoop (nodeDisableOk deviceDisableOk : String → Bool)
    (info : String → HNodeInfo) (ids : List String) (nodes : List (String × Nat)) :
    List (String × Nat) × List Action × Bool :=
  match ids with
  | [] => (nodes, [], true)
  | node_id :: rest =>
    let node_info := info node_id
    if pyLower node_info.state ≠ "online" ∨ node_info.devices = [] then
      pvResizeNodeLoop nodeDisableOk deviceDisableOk info rest nodes
    else
      if nodes.length > 2 ∧ nodeDisableOk node_id = false then
        (nodes, [Action.other "assert_node_disable_failed"], false)
      else
        let head_acts : List Action :=
          if nodes.length > 2 then
            [Action.disableNode node_id, Action.addCleanup (CleanupOp.enableNode node_id)]
          else []
        let dev := pvResizeDevLoop deviceDisableOk node_id node_info.devices nodes
        if dev.2.2 then
          let tail := pvResizeNodeLoop nodeDisableOk deviceDisableOk info rest dev.1
          (tail.1, head_acts ++ dev.2.1 ++ tail.2.1, tail.2.2)
        else (dev.1, head_acts ++ dev.2.1, false)

/-- Python `min` over a non-empty list (`min(nodes.values())`). -/
def pyListMin : List Nat → Nat
  | [] => 0
  | v :: vs => vs.foldl Nat.min v

/-- Outcome of the `_pv_resize` selection phase. -/
inductive PvSelectOutcome where
  | failedAssert
  | skipped
  | available (size_gb : Nat)
deriving DecidableEq

/-- `_pv_resize` up to the computation of `available_size_gb`:
`assertTrue(node_id_list)` fails on an empty list, and a falsy
`heketi_node_disable`/`heketi_device_disable` result fails the corresponding
`assertTrue` mid-loop; otherwise the test is skipped when fewer than three
nodes were selected, else
`available_size_gb = int(min(nodes.values()) / (1024**2))`. -/
def pv_resize_outcome (nodeDisableOk deviceDisableOk : String → Bool)
    (info : String → HNodeInfo) (node_id_list : List String) : PvSelectOutcome :=
  if node_id_list = [] then PvSelectOutcome.failedAssert
  else
    let r := pvResizeNodeLoop nodeDisableOk deviceDisableOk info node_id_list []
    if r.2.2 = false then PvSelectOutcome.failedAssert
    else if r.1.length < 3 then PvSelectOutcome.skipped
    else PvSelectOutcome.available (pyListMin (r.1.map Prod.snd) / 1024 ^ 2)

/-! ## `test_create_volumes_enabling_and_disabling_heketi_devices`, node section
(tests/functional/heketi/test_disabling_device.py, lines 16-33)

The first loop (`for node_id in node_id_list[0:3]`) only collects node info;
its loop variable `node_id` stays bound to the last processed id.  The second
loop (`for node in node_id_list[3:]`) then calls
`heketi_node_disable(..., node_id)` and registers
`addCleanup(heketi_node_enable, ..., node_id)` — using the stale `node_id`,
not `node`. -/

def disableExtraNodesSection (node_id_list : List String) : List Action :=
  if node_id_list.length > 3 then
    match (node_id_list.take 3).getLast? with
    | some node_id =>
      (node_id_list.drop 3).flatMap
        (fun _node =>
          [Action.disableNode node_id, Action.addCleanup (CleanupOp.enableNode node_id)])
    | none => []
  else []

/-! ## `test_create_volumes_enabling_and_disabling_heketi_devices`, remainder
(tests/functional/heketi/test_disabling_device.py, lines 36-134) -/

/-- The fields the test reads from a `heketi_volume_create(..., json=True)`
result: `out["bricks"][0]["device"]`, `out["bricks"][0]["volume"]` and
`out["name"]`. -/
structure HVol where
  brickDevice : String
  brickVolume : String
  name : String
deriving DecidableEq

/-- The fields the test reads from `heketi_device_info(..., json=True)`:
`out["name"]` and `out["state"]`. -/
structure HDevInfo where
  name : String
  state : String
deriving DecidableEq

/-- Environment of `test_create_volumes_enabling_and_disabling_heketi_devices`:
the results of every external call it makes.  `none` for a create means the
call returned a falsy value / raised, making the guarding assertion fail. -/
structure DisablingEnv where
  node_id_list : List String
  info : String → HNodeInfo
  deviceDisableOk : String → Bool
  vol1 : Option HVol
  devInfo1 : Option HDevInfo
  vol2 : Option HVol
  deviceEnableOk : Bool
  devInfo2 : Option HDevInfo
  vol3 : Option HVol

/-- The inner loop `for device in node_info["devices"][1:]`: each successful
`heketi_device_disable` is followed by `addCleanup(heketi_device_enable, ...)`;
a falsy disable result fails `assertTrue` and aborts. -/
def disableDevicesWithCleanup (ok : String → Bool) : List HDevice → List Action × Bool
  | [] => ([], true)
  | d :: ds =>
    if ok d.id then
      andThen
        ([Action.disableDevice d.id, Action.addCleanup (CleanupOp.enableDevice d.id)], true)
        (disableDevicesWithCleanup ok ds)
    else ([Action.other "assert_device_disable_failed"], false)

/-- The loop `for node_info in node_info_list[0:3]` disabling second and
further devices: aborts when a node has no devices (`assertTrue(devices, ...)`)
or when its first device is not online (`self.skipTest`). -/
def disableSecondDevicesSection (ok : String → Bool) : List HNodeInfo → List Action × Bool
  | [] => ([], true)
  | ni :: rest =>
    match ni.devices with
    | [] => ([Action.other "assert_node_has_no_devices"], false)
    | d0 :: ds =>
      if pyLower (pyStrip d0.state) ≠ "online" then
        ([Action.other "skiptest_first_device_offline"], false)
      else if ds = [] then disableSecondDevicesSection ok rest
      else andThen (disableDevicesWithCleanup ok ds) (disableSecondDevicesSection ok rest)

/-- `heketi_volume_create` followed by `assertTrue` and
`addCleanup(heketi_volume_delete, ..., out["bricks"][0]["volume"])`. -/
def createVolWithCleanup (vol : Option HVol) : List Action × Bool :=
  match vol with
  | none => ([Action.other "assert_volume_create_failed"], false)
  | some v =>
    ([Action.createHeketiVolume v.brickVolume,
      Action.addCleanup (CleanupOp.deleteVolume v.brickVolume)], true)

/-- The `try` body (lines 72-100): device info checks, then the volume-create
attempt that is expected to raise `AssertionError` (`env.vol2 = none`); if a
volume is unexpectedly created, its delete is registered via `addCleanup`
before `assert False` aborts. -/
def disablingTryBody (env : DisablingEnv) : List Action × Bool :=
  andThen
    (match env.devInfo1 with
     | none => ([Action.other "assert_device_info_failed"], false)
     | some di =>
       if pyStrip (pyLower di.state) ≠ "offline" then
         ([Action.other "assert_device_not_offline"], false)
       else ([], true))
    (match env.vol2 with
     | none => ([], true)
     | some v =>
       ([Action.createHeketiVolume v.brickVolume,
         Action.addCleanup (CleanupOp.deleteVolume v.brickVolume),
         Action.other "assert_false_volume_unexpectedly_created"], false))

/-- The `finally` block (lines 101-107): `heketi_device_enable` followed by
`assertTrue` on its result. -/
def disablingFinallySection (enableOk : Bool) (device_id : String) : List Action × Bool :=
  if enableOk then ([Action.enableDevice device_id], true)
  else ([Action.other "assert_device_enable_failed"], false)

/-- Lines 109-134 after the `try`/`finally`: device info check
(`out["state"] == "online"`, no strip/lower here), then the final volume
creation with its cleanup, then the gluster volume info assertion. -/
def disablingTailSection (env : DisablingEnv) : List Action × Bool :=
  andThen
    (match env.devInfo2 with
     | none => ([Action.other "assert_device_info2_failed"], false)
     | some di =>
       if di.state ≠ "online" then ([Action.other "assert_device_not_online"], false)
       else ([], true))
    (andThen (createVolWithCleanup env.vol3) ([Action.other "gluster_volume_info_check"], true))

/-- Full trace of `test_create_volumes_enabling_and_disabling_heketi_devices`.
The standalone `heketi_device_disable` of the first volume's brick device
(line 67) is re-enabled only by the `finally` block, never via `addCleanup`. -/
def test_disabling_device_trace (env : DisablingEnv) : List Action × Bool :=
  andThen (disableExtraNodesSection env.node_id_list, true)
    (andThen
      (disableSecondDevicesSection env.deviceDisableOk
        ((env.node_id_list.take 3).map env.info))
      (match env.vol1 with
       | none => ([Action.other "assert_volume_create_failed"], false)
       | some v =>
         andThen (createVolWithCleanup env.vol1)
           (if env.deviceDisableOk v.brickDevice then
             andThen ([Action.disableDevice v.brickDevice], true)
               (andThen
                 (tryFinallyActs (disablingTryBody env)
                   (disablingFinallySection env.deviceEnableOk v.brickDevice))
                 (disablingTailSection env))
           else ([Action.other "assert_device_disable_failed"], false))))

/-! ## `GlusterStabilityTestSetup.deploy_resouces`
(tests/functional/gluster_stability/test_restart_gluster_services.py,
lines 105-145).  The secret, storage class, PVC (of size `self.pvcsize = 1`)
and DC are each created and immediately covered by `addCleanup` callbacks. -/

/-- Names returned by the four `oc_create_*` collaborator calls. -/
structure DeployEnv where
  secretname : String
  sc_name : String
  pvc_name : String
  dc_name : String

def deploy_resouces_trace (e : DeployEnv) : List Action :=
  [Action.createSecret e.secretname,
   Action.addCleanup (CleanupOp.deleteRes "secret" e.secretname),
   Action.createSC e.sc_name,
   Action.addCleanup (CleanupOp.deleteRes "sc" e.sc_name),
   Action.createPVC e.pvc_name 1,
   Action.addCleanup (CleanupOp.waitAbsence "pvc" e.pvc_name),
   Action.addCleanup (CleanupOp.deleteRes "pvc" e.pvc_name),
   Action.createDC e.dc_name,
   Action.addCleanup (CleanupOp.deleteRes "dc" e.dc_name),
   Action.addCleanup (CleanupOp.scaleDown e.dc_name)]

/-! ## `TestVolumeCreationTestCases.test_create_heketi_volume`
(tests/functional/heketi/test_volume_creation.py, lines 16-85) -/

/-- Fields read from the `heketi_volume_create` output dict. -/
structure HVolCreateOut where
  name : String
  id : String

/-- Trace of `test_create_heketi_volume`: the created volume's delete is
registered via `addCleanup` right after `assertNotEqual(output_dict, False)`;
the remaining statements only read and assert cluster state. -/
def test_create_heketi_volume_trace (out : Option HVolCreateOut) : List Action × Bool :=
  match out with
  | none => ([Action.other "assert_volume_not_created"], false)
  | some o =>
    ([Action.createHeketiVolume o.id,
      Action.addCleanup (CleanupOp.deleteVolume o.id),
      Action.other "replica_size_host_brick_assertions"], true)

/-! ## `_pv_resize` as a trace (selection phase plus DC creation).
`create_storage_class` and `create_and_wait_for_pvc` are base-class helpers
whose bodies are outside this repository snapshot; they appear as opaque
`other` steps. -/

structure PvResizeEnv where
  info : String → HNodeInfo
  node_id_list : List String
  nodeDisableOk : String → Bool
  deviceDisableOk : String → Bool
  dc_name : String

def pv_resize_trace (e : PvResizeEnv) : List Action :=
  if e.node_id_list = [] then [Action.other "assert_node_list_empty"]
  else
    let sel := pvResizeNodeLoop e.nodeDisableOk e.deviceDisableOk e.info e.node_id_list []
    sel.2.1 ++
      (if sel.2.2 = false then []
       else if sel.1.length < 3 then [Action.other "skiptest_fewer_than_three_nodes"]
       else
         [Action.other "create_storage_class_and_pvc",
          Action.createDC e.dc_name,
          Action.addCleanup (CleanupOp.deleteRes "dc" e.dc_name),
          Action.addCleanup (CleanupOp.scaleDown e.dc_name),
          Action.other "resize_and_io_steps"])

/-! ## Cleanup coverage predicates (claim C1) -/

/-- The cleanup that the claim requires for an action: deletion for each
created resource, re-enabling for each disabled node or device. -/
def requiredCleanup : Action → Option CleanupOp
  | Action.createSecret n => some (CleanupOp.deleteRes "secret" n)
  | Action.createSC n => some (CleanupOp.deleteRes "sc" n)
  | Action.createPVC n _ => some (CleanupOp.deleteRes "pvc" n)
  | Action.createDC n => some (CleanupOp.deleteRes "dc" n)
  | Action.createHeketiVolume v => some (CleanupOp.deleteVolume v)
  | Action.disableNode id => some (CleanupOp.enableNode id)
  | Action.disableDevice id => some (CleanupOp.enableDevice id)
  | _ => none

/-- Strict reading of the claim: the cleanup is registered via `addCleanup`
somewhere in the test. -/
def coveredStrictB (t : List Action) (a : Action) : Bool :=
  (requiredCleanup a).all (fun c => decide (Action.addCleanup c ∈ t))

/-- The claim as stated: every created resource and every disabled
node/device in the trace has a matching `addCleanup` registration. -/
def claimC1Strict (t : List Action) : Prop :=
  ∀ a ∈ t, coveredStrictB t a = true

/-- Amended coverage: an `addCleanup` registration, or (for disabled
nodes/devices) a direct re-enable performed by the test body itself, e.g. in
a `try`/`finally`. -/
def satisfiedAmendedB (t : List Action) : CleanupOp → Bool
  | CleanupOp.enableDevice id =>
    decide (Action.addCleanup (CleanupOp.enableDevice id) ∈ t) ||
    decide (Action.enableDevice id ∈ t)
  | CleanupOp.enableNode id =>
    decide (Action.addCleanup (CleanupOp.enableNode id) ∈ t) ||
    decide (Action.enableNode id ∈ t)
  | c => decide (Action.addCleanup c ∈ t)

def coveredAmendedB (t : List Action) (a : Action) : Bool :=
  (requiredCleanup a).all (satisfiedAmendedB t)

/-- Amended claim: every created resource has its deletion registered via
`addCleanup`, and every disabled node/device is either covered by an
`addCleanup` re-enable or re-enabled directly by the test body. -/
def claimC1Amended (t : List Action) : Prop :=
  ∀ a ∈ t, coveredAmendedB t a = true

/-! ## Test outcomes -/

/-- How a test method ends: `passed`, `failed` (an `assert*` failed),
`errored` (a non-assertion exception propagated), `skipped`. -/
inductive TestOutcome where
  | passed
  | failed
  | errored
  | skipped
deriving DecidableEq

/-! ## `test_pv_resize_try_shrink_pv_size`
(tests/functional/common/provisioning/test_pv_resize.py, lines 200-234) -/

/-- Environment of `test_pv_resize_try_shrink_pv_size`: whether the setup
steps (storage class, PVC bind, DC, pod ready) succeed, the return code of
the first `dd`, what `resize_pvc(node, pvc_name, 2)` raises (`none` = returns
normally), the PVC and PV sizes observed by `verify_pvc_size`/`verify_pv_size`
after the resize attempt, and the return code of the final `dd`. -/
structure ShrinkEnv where
  setupOk : Bool
  firstWriteRet : Int
  resizeRaises : Option FailKind
  pvcSizeObserved : Nat
  pvSizeObserved : Nat
  secondWriteRet : Int

/-- `test_pv_resize_try_shrink_pv_size`: creates a PVC with
`pv_size = 5`, writes data, requests a resize to `pvc_resize = 2` inside
`assertRaises(ExecutionError)`, verifies the PVC and PV sizes are still 5,
and writes again. -/
def test_pv_resize_try_shrink_pv_size (env : ShrinkEnv) : List Action × TestOutcome :=
  if env.setupOk = false then ([Action.other "setup_failed"], TestOutcome.errored)
  else
    let pre := [Action.createPVC "pvc" 5, Action.other "create_dc_wait_pod"]
    if env.firstWriteRet ≠ 0 then
      (pre ++ [Action.other "dd_file"], TestOutcome.failed)
    else
      let pre := pre ++ [Action.other "dd_file", Action.resizePVC 2]
      match env.resizeRaises with
      | none => (pre, TestOutcome.failed)
      | some FailKind.executionError =>
        if env.pvcSizeObserved ≠ 5 then (pre, TestOutcome.failed)
        else if env.pvSizeObserved ≠ 5 then (pre, TestOutcome.failed)
        else if env.secondWriteRet ≠ 0 then
          (pre ++ [Action.other "dd_file_new"], TestOutcome.failed)
        else (pre ++ [Action.other "dd_file_new"], TestOutcome.passed)
      | some _ => (pre, TestOutcome.errored)

/-! ## `test_restart_services_provision_volume_and_run_io`
(tests/functional/gluster_stability/test_restart_gluster_services.py,
lines 41-44 and 271-297) -/

def SERVICE_TARGET : String := "gluster-block-target"

def SERVICE_BLOCKD : String := "gluster-blockd"

def SERVICE_TCMU : String := "tcmu-runner"

/-- The tuple `(SERVICE_BLOCKD, SERVICE_TCMU, SERVICE_TARGET)` iterated by the
inner loop. -/
def services3 : List String := [SERVICE_BLOCKD, SERVICE_TCMU, SERVICE_TARGET]

/-- `state = "exited" if service == SERVICE_TARGET else "running"`. -/
def expectedSubState (svc : String) : String :=
  if svc = SERVICE_TARGET then "exited" else "running"

/-- The (node, service) pairs checked by the nested loops
`for g_node in g_nodes: for service in (...)`. -/
def serviceChecks (g_nodes : List String) : List (String × String) :=
  g_nodes.flatMap (fun g_node => services3.map (fun svc => (g_node, svc)))

/-- Runs the `assertTrue(wait_for_service_status_on_gluster_pod_or_node(...))`
checks in order; `env g s` says whether the wait succeeds for node `g` and
service `s`.  A failed wait fails the assertion and aborts. -/
def runChecks (env : String → String → Bool) : List (String × String) → List Action × Bool
  | [] => ([], true)
  | p :: rest =>
    let a := Action.waitServiceStatus p.1 p.2 "active" (expectedSubState p.2)
    if env p.1 p.2 then
      let r := runChecks env rest
      (a :: r.1, r.2)
    else ([a], false)

/-- `test_restart_services_provision_volume_and_run_io`: asserts more than two
hosting nodes, restarts the given service on `g_nodes[0]`, waits for the app
pod, runs the service-status checks on every hosting node, and finally calls
`validate_volumes_and_blocks`. -/
def test_restart_services_trace (service : String) (g_nodes : List String)
    (env : String → String → Bool) : List Action × Bool :=
  match g_nodes with
  | [] => ([Action.other "assert_greater_len_failed"], false)
  | g0 :: _ =>
    if g_nodes.length ≤ 2 then ([Action.other "assert_greater_len_failed"], false)
    else
      andThen ([Action.restartService g0 service, Action.other "wait_for_pod_be_ready"], true)
        (andThen (runChecks env (serviceChecks g_nodes))
          ([Action.validateVolumes], true))

/-! ## `TestPvResizeClass.setUpClass` / `setUp`
(tests/functional/common/provisioning/test_pv_resize.py, lines 28-43) -/

/-- Python string comparison (`get_openshift_version() < "3.9"`):
lexicographic on code points. -/
def pyStrLt (a b : String) : Prop := a.data < b.data

instance (a b : String) : Decidable (pyStrLt a b) :=
  inferInstanceAs (Decidable (a.data < b.data))

/-- Class-level state produced by `TestPvResizeClass.setUpClass`: whether
`cls.skip_me = True` was recorded, and whether `enable_pvc_resize` was
called. -/
structure PvResizeClassState where
  skip_me : Bool
  resize_enabled : Bool
deriving DecidableEq

/-- `TestPvResizeClass.setUpClass`: on OpenShift below 3.9 it records
`skip_me` and returns without enabling PVC resize. -/
def TestPvResizeClass_setUpClass (version : String) : PvResizeClassState :=
  if pyStrLt version "3.9" then { skip_me := true, resize_enabled := false }
  else { skip_me := false, resize_enabled := true }

/-- `TestPvResizeClass.setUp`: raises a skip when
`getattr(self, "skip_me", False)` is truthy. -/
def TestPvResizeClass_setUp (st : PvResizeClassState) : Except FailKind Unit :=
  if st.skip_me then Except.error FailKind.skipSignal else Except.ok ()

/-- Runs one test method of `TestPvResizeClass`: `setUpClass`, then `setUp`;
the body runs (producing its actions) only when `setUp` did not raise. -/
def runPvResizeTestMethod (version : String) (body : List Action) :
    List Action × TestOutcome :=
  match TestPvResizeClass_setUp (TestPvResizeClass_setUpClass version) with
  | Except.error _ => ([], TestOutcome.skipped)
  | Except.ok _ => (body, TestOutcome.passed)

/-! ## `GlusterStabilityTestSetup.get_heketi_block_volumes`
(tests/functional/gluster_stability/test_restart_gluster_services.py,
lines 41 and 170-201)

The regex `HEKETI_BLOCK_VOLUME_REGEX % prefix` is
`^Id:(.*).Cluster:(.*).Name:<prefix>_(.*)$`, applied with `re.search` to each
stripped line of the `heketi blockvolume list` output.  The matcher below
implements that pattern directly: the wildcard groups are greedy (longest
split first) and `.` matches any character except a newline. -/

/-- First successful application of `f` over the list, in order. -/
def firstSome {α β : Type} : List α → (α → Option β) → Option β
  | [], _ => none
  | a :: as, f =>
    match f a with
    | some b => some b
    | none => firstSome as f

/-- All splits `(g, rest)` of `s` with `g ++ rest = s` and `g` free of
newlines, longest `g` first — the backtracking order of a greedy `(.*)`. -/
def dotStarSplits (s : List Char) : List (List Char × List Char) :=
  (((List.range (s.length + 1)).reverse).map (fun i => (s.take i, s.drop i))).filter
    (fun p => decide ('\n' ∉ p.1))

/-- Consume the literal `p` at the head of `s`. -/
def dropLit (p s : List Char) : Option (List Char) :=
  if p.isPrefixOf s then some (s.drop p.length) else none

/-- Matches `Name:<prefix>_(.*)$` and returns the third capture group. -/
def matchNameTail (pre : String) (s : List Char) : Option (List Char) :=
  match dropLit ("Name:" ++ pre ++ "_").data s with
  | some rest => if '\n' ∈ rest then none else some rest
  | none => none

/-- Matches `(.*).Name:<prefix>_(.*)$` and returns groups 2 and 3. -/
def matchClusterTail (pre : String) (s : List Char) : Option (List Char × List Char) :=
  firstSome (dotStarSplits s) (fun g2x =>
    match g2x.2 with
    | [] => none
    | c :: rest =>
      if c = '\n' then none
      else (matchNameTail pre rest).map (fun g3 => (g2x.1, g3)))

/-- `re.search("^Id:(.*).Cluster:(.*).Name:<pre>_(.*)$", line)`: returns the
three capture groups on a match. -/
def matchBlockVolLine (pre : String) (line : String) : Option (String × String × String) :=
  match dropLit "Id:".data line.data with
  | none => none
  | some s =>
    firstSome (dotStarSplits s) (fun g1x =>
      match g1x.2 with
      | [] => none
      | c :: rest =>
        if c = '\n' then none
        else
          match dropLit "Cluster:".data rest with
          | none => none
          | some s2 =>
            (matchClusterTail pre s2).map
              (fun p => (String.mk g1x.1, String.mk p.1, String.mk p.2)))

/-- The matches of the run-prefix regex over the stripped lines of the
command output, in line order. -/
def matchedBlockVolLines (pre : String) (heketi_cmd_out : String) :
    List (String × String × String) :=
  (pySplitNl heketi_cmd_out).filterMap (fun block_vol => matchBlockVolLine pre (pyStrip block_vol))

/-- Python string `<=`, used by `sorted`: lexicographic on code points. -/
def pyStrLe (a b : String) : Prop := a.data ≤ b.data

instance (a b : String) : Decidable (pyStrLe a b) :=
  inferInstanceAs (Decidable (a.data ≤ b.data))

/-- Python `sorted` on a list of strings (ascending). -/
def pySorted (l : List String) : List String :=
  List.insertionSort pyStrLe l

/-- `GlusterStabilityTestSetup.get_heketi_block_volumes`: `assertTrue` fails
on empty command output (`none`); otherwise the loop appends, per matching
line, the stripped group 1 to `heketi_block_volume_ids` and the stripped
group 3 to `heketi_block_volume_names`, and both lists are returned sorted. -/
def get_heketi_block_volumes (pre : String) (heketi_cmd_out : String) :
    Option (List String × List String) :=
  if heketi_cmd_out = "" then none
  else
    let r := (pySplitNl heketi_cmd_out).foldl
      (fun (acc : List String × List String) block_vol =>
        match matchBlockVolLine pre (pyStrip block_vol) with
        | some m => (acc.1 ++ [pyStrip m.1], acc.2 ++ [pyStrip m.2.2])
        | none => acc)
      ([], [])
    some (pySorted r.1, pySorted r.2)
instance (t : List Action) : Decidable (claimC1Strict t) :=
  inferInstanceAs (Decidable (∀ a ∈ t, coveredStrictB t a = true))

instance (t : List Action) : Decidable (claimC1Amended t) :=
  inferInstanceAs (Decidable (∀ a ∈ t, coveredAmendedB t a = true))

instance : IsTotal String pyStrLe :=
  ⟨fun a b => le_total a.data b.data⟩

instance : IsTrans String pyStrLe :=
  ⟨fun _ _ _ hab hbc => le_trans hab hbc⟩

/-! # Theorems -/

/-- C4: evaluating the node-disabling section of
`test_create_volumes_enabling_and_disabling_heketi_devices` on the four-node
list `["n1", "n2", "n3", "n4"]`: the code disables the stale `node_id`
(`"n3"`, the third node) and registers a cleanup re-enabling `"n3"`, while the
fourth node `"n4"` is neither disabled nor covered by a cleanup — contradicting
the claim that every node after the third is disabled and re-enabled. -/
theorem c4_disable_extra_nodes_eval :
    disableExtraNodesSection ["n1", "n2", "n3", "n4"] =
      [Action.disableNode "n3", Action.addCleanup (CleanupOp.enableNode "n3")] ∧
    Action.disableNode "n4" ∉ disableExtraNodesSection ["n1", "n2", "n3", "n4"] ∧
    Action.addCleanup (CleanupOp.enableNode "n4") ∉
      disableExtraNodesSection ["n1", "n2", "n3", "n4"] := by
  decide

/-- C9: `delete_volumes` on a single volume id behaves identically to
`delete_volumes` on the one-element list holding that id: the argument is
normalized to `[v]` before the deletion loop, so the same deletions are
attempted and the same errors raised. -/
theorem c9_delete_volumes_single_eq_list (heketi_out : String → String) (v : String) :
    delete_volumes heketi_out (VolumeIds.single v) =
      delete_volumes heketi_out (VolumeIds.coll [v]) := rfl

/-- C2, counterexample: when `hello_heketi` reports the server not alive,
`HeketiBaseClass.setUpClass` raises `ConfigError`, which is neither an
assertion failure nor a skip — the claim that every failure surfaces as an
assertion failure or skip is false. -/
theorem c2_assertion_or_skip_counterexample :
    heketi_setUpClass_check false true = Except.error FailKind.configError ∧
    FailKind.configError ≠ FailKind.assertionFailure ∧
    FailKind.configError ≠ FailKind.skipSignal :=
  ⟨rfl, by decide, by decide⟩

/-- C2, amended: failures surface as assertion failures, skips, or the
suite's own exception classes: `setUpClass` raises `ConfigError` exactly when
the heketi hello check fails and `ExecutionError` exactly when the oc project
switch fails, and `delete_volumes` signals failure only by raising
`ExecutionError`. -/
theorem c2_failure_kinds_amended (hello_ok switch_ok : Bool)
    (heketi_out : String → String) (ids : VolumeIds) :
    (heketi_setUpClass_check hello_ok switch_ok = Except.error FailKind.configError ↔
      hello_ok = false) ∧
    (heketi_setUpClass_check hello_ok switch_ok = Except.error FailKind.executionError ↔
      (hello_ok = true ∧ switch_ok = false)) ∧
    (∀ e, (delete_volumes heketi_out ids).2 = Except.error e →
      e.1 = FailKind.executionError) := by
  refine ⟨?_, ?_, ?_⟩
  · cases hello_ok <;> cases switch_ok <;> simp [heketi_setUpClass_check]
  · cases hello_ok <;> cases switch_ok <;> simp [heketi_setUpClass_check]
  · intro e he
    unfold delete_volumes at he
    dsimp only at he
    split at he
    · exact absurd he (by simp)
    · injection he with h
      rw [← h]

/-- C2, amended, witness: concrete instances of the amended statement. -/
theorem c2_failure_kinds_amended_witness :
    heketi_setUpClass_check false true = Except.error FailKind.configError ∧
    (FailKind.executionError, "Failed to delete following heketi volumes: a").1 =
      FailKind.executionError := by
  constructor
  · exact (c2_failure_kinds_amended false true (fun _ => "") (VolumeIds.coll ["a"])).1.mpr rfl
  · exact (c2_failure_kinds_amended false true (fun _ => "") (VolumeIds.coll ["a"])).2.2 _ rfl

/-- C7: for every test method of `TestPvResizeClass`, when the OpenShift
version is below `"3.9"`, `setUpClass` records the skip flag without enabling
PVC resize, `setUp` raises a skip, and the test body runs no actions at all. -/
theorem c7_skip_below_39 (version : String) (body : List Action)
    (h : pyStrLt version "3.9") :
    (TestPvResizeClass_setUpClass version).skip_me = true ∧
    (TestPvResizeClass_setUpClass version).resize_enabled = false ∧
    runPvResizeTestMethod version body = ([], TestOutcome.skipped) := by
  unfold runPvResizeTestMethod TestPvResizeClass_setUp TestPvResizeClass_setUpClass
  rw [if_pos h]
  exact ⟨rfl, rfl, rfl⟩

/-- C7, witness: OpenShift `"3.7"` is below `"3.9"` and the method is skipped
with an empty action trace. -/
theorem c7_skip_below_39_witness :
    pyStrLt "3.7" "3.9" ∧
    runPvResizeTestMethod "3.7" [Action.other "body"] = ([], TestOutcome.skipped) :=
  ⟨by decide, (c7_skip_below_39 "3.7" [Action.other "body"] (by decide)).2.2⟩

/-- C3: under a successful setup and first write,
`test_pv_resize_try_shrink_pv_size` passes exactly when the requested shrink
of the 5 Gb PVC to 2 Gb raises `ExecutionError`, the PVC and PV sizes are
still 5 afterwards, and the subsequent write succeeds; the trace records the
PVC created with size 5 and the resize requested with size 2. -/
theorem c3_shrink_pv_test (env : ShrinkEnv)
    (hsetup : env.setupOk = true) (hw : env.firstWriteRet = 0) :
    ((test_pv_resize_try_shrink_pv_size env).2 = TestOutcome.passed ↔
      (env.resizeRaises = some FailKind.executionError ∧
       env.pvcSizeObserved = 5 ∧ env.pvSizeObserved = 5 ∧ env.secondWriteRet = 0)) ∧
    Action.createPVC "pvc" 5 ∈ (test_pv_resize_try_shrink_pv_size env).1 ∧
    Action.resizePVC 2 ∈ (test_pv_resize_try_shrink_pv_size env).1 := by
  unfold test_pv_resize_try_shrink_pv_size
  rw [hsetup, hw]
  rcases env with ⟨setupOk, firstWriteRet, resizeRaises, pvcS, pvS, sndW⟩
  dsimp only at *
  subst hsetup hw
  rcases resizeRaises with _ | k
  · simp
  · rcases k <;>
      (by_cases h1 : pvcS = 5 <;> by_cases h2 : pvS = 5 <;>
        by_cases h3 : sndW = 0 <;> simp [h1, h2, h3])

/-- C3, witness: the environment where the resize raises `ExecutionError`,
both sizes remain 5 and the final write succeeds makes the test pass. -/
theorem c3_shrink_pv_test_witness :
    (test_pv_resize_try_shrink_pv_size
      { setupOk := true, firstWriteRet := 0,
        resizeRaises := some FailKind.executionError,
        pvcSizeObserved := 5, pvSizeObserved := 5, secondWriteRet := 0 }).2 =
      TestOutcome.passed := by
  have h := c3_shrink_pv_test
    { setupOk := true, firstWriteRet := 0,
      resizeRaises := some FailKind.executionError,
      pvcSizeObserved := 5, pvSizeObserved := 5, secondWriteRet := 0 } rfl rfl
  exact h.1.mpr ⟨rfl, rfl, rfl, rfl⟩

/-- The deletion loop with an arbitrary starting accumulator: it visits every
id and collects exactly the ids whose output lacks the confirmation string. -/
theorem delete_volumes_foldl_general (f : String → String) (ids : List String)
    (acc : List String × List String) :
    ids.foldl
      (fun acc volume_id =>
        (acc.1 ++ [volume_id],
         if pyIn ("Volume " ++ volume_id ++ " deleted") (f volume_id) then acc.2
         else acc.2 ++ [volume_id]))
      acc =
    (acc.1 ++ ids,
     acc.2 ++ ids.filter
       (fun volume_id => !decide (pyIn ("Volume " ++ volume_id ++ " deleted") (f volume_id)))) := by
  induction ids generalizing acc with
  | nil => simp
  | cons x xs ih =>
    rw [List.foldl_cons, ih]
    by_cases h : pyIn ("Volume " ++ x ++ " deleted") (f x) <;>
      simp [h, List.filter_cons]

/-- `delete_volumes_scan` visits every id, in order, and its `errored_ids`
are the ids whose delete output lacks `"Volume <id> deleted"`. -/
theorem delete_volumes_scan_eq (f : String → String) (ids : List String) :
    delete_volumes_scan f ids =
      (ids, ids.filter
        (fun volume_id => !decide (pyIn ("Volume " ++ volume_id ++ " deleted") (f volume_id)))) := by
  unfold delete_volumes_scan
  rw [delete_volumes_foldl_general]
  simp

/-- C8: `delete_volumes` calls `heketi_volume_delete` on every id of the list
even when earlier deletions fail, raises `ExecutionError` if and only if some
id's output lacks its confirmation string, and returns normally when every
output contains it. -/
theorem c8_delete_volumes_behavior (heketi_out : String → String) (ids : List String) :
    (delete_volumes heketi_out (VolumeIds.coll ids)).1 = ids ∧
    ((∃ e, (delete_volumes heketi_out (VolumeIds.coll ids)).2 = Except.error e) ↔
      ∃ id ∈ ids, ¬ pyIn ("Volume " ++ id ++ " deleted") (heketi_out id)) ∧
    ((∀ id ∈ ids, pyIn ("Volume " ++ id ++ " deleted") (heketi_out id)) →
      (delete_volumes heketi_out (VolumeIds.coll ids)).2 = Except.ok ()) := by
  simp only [delete_volumes, delete_volumes_scan_eq]
  refine ⟨trivial, ?_, ?_⟩
  · by_cases hf : ids.filter
        (fun volume_id =>
          !decide (pyIn ("Volume " ++ volume_id ++ " deleted") (heketi_out volume_id))) = []
    · rw [if_pos hf]
      simp only [List.filter_eq_nil_iff] at hf
      constructor
      · rintro ⟨e, he⟩
        exact absurd he (by simp)
      · rintro ⟨id, hid, hpy⟩
        exact absurd (by simpa using hf id hid) hpy
    · rw [if_neg hf]
      constructor
      · intro _
        obtain ⟨x, hx⟩ := List.exists_mem_of_ne_nil _ hf
        have hx' := List.mem_filter.mp hx
        exact ⟨x, hx'.1, by simpa using hx'.2⟩
      · intro _
        exact ⟨_, rfl⟩
  · intro hall
    rw [if_pos]
    rw [List.filter_eq_nil_iff]
    intro a ha
    simpa using hall a ha

/-- C8, witness: on outputs that all contain the confirmation string, both
ids are visited and the call returns normally. -/
theorem c8_delete_volumes_behavior_witness :
    (delete_volumes (fun id => "Volume " ++ id ++ " deleted") (VolumeIds.coll ["a", "b"])).1 =
      ["a", "b"] ∧
    (delete_volumes (fun id => "Volume " ++ id ++ " deleted") (VolumeIds.coll ["a", "b"])).2 =
      Except.ok () := by
  have h := c8_delete_volumes_behavior (fun id => "Volume " ++ id ++ " deleted") ["a", "b"]
  exact ⟨h.1, h.2.2 (by decide)⟩

/-- When every wait succeeds, `runChecks` performs every check and continues. -/
theorem runChecks_all_ok (env : String → String → Bool) (l : List (String × String))
    (h : ∀ p ∈ l, env p.1 p.2 = true) :
    runChecks env l =
      (l.map (fun p => Action.waitServiceStatus p.1 p.2 "active" (expectedSubState p.2)),
       true) := by
  induction l with
  | nil => rfl
  | cons p rest ih =>
    unfold runChecks
    rw [h p (List.mem_cons_self p rest), ih (fun q hq => h q (List.mem_cons_of_mem p hq))]
    simp

/-- Every (node, service) pair is among the nested-loop checks. -/
theorem mem_serviceChecks (g_nodes : List String) (g : String) (svc : String)
    (hg : g ∈ g_nodes) (hs : svc ∈ services3) : (g, svc) ∈ serviceChecks g_nodes := by
  unfold serviceChecks
  rw [List.mem_flatMap]
  exact ⟨g, hg, List.mem_map.mpr ⟨svc, hs, rfl⟩⟩

/-- C6: with more than two hosting nodes and all status waits succeeding,
`test_restart_services_provision_volume_and_run_io` checks, for every hosting
node and each of the three gluster services, state `"active"` with sub-state
`"exited"` for `gluster-block-target` and `"running"` for the other two, and
all those checks happen before `validate_volumes_and_blocks`. -/
theorem c6_restart_service_checks (service : String) (g_nodes : List String)
    (env : String → String → Bool)
    (hlen : 2 < g_nodes.length)
    (henv : ∀ g s, env g s = true) :
    (test_restart_services_trace service g_nodes env).2 = true ∧
    ∃ pre, (test_restart_services_trace service g_nodes env).1 =
        pre ++ [Action.validateVolumes] ∧
      ∀ g ∈ g_nodes, ∀ svc ∈ services3,
        Action.waitServiceStatus g svc "active"
          (if svc = SERVICE_TARGET then "exited" else "running") ∈ pre := by
  rcases g_nodes with _ | ⟨g0, gs⟩
  · simp at hlen
  · dsimp only [test_restart_services_trace]
    rw [if_neg (Nat.not_le.mpr hlen)]
    rw [runChecks_all_ok env _ (fun p _ => henv p.1 p.2)]
    simp only [andThen]
    refine ⟨rfl, [Action.restartService g0 service, Action.other "wait_for_pod_be_ready"] ++
      (serviceChecks (g0 :: gs)).map
        (fun p => Action.waitServiceStatus p.1 p.2 "active" (expectedSubState p.2)), by simp, ?_⟩
    intro g hg svc hsvc
    refine List.mem_append_right _ ?_
    rw [List.mem_map]
    exact ⟨(g, svc), mem_serviceChecks _ g svc hg hsvc, rfl⟩

/-- C6, witness: a concrete three-node cluster with all waits succeeding; the
tcmu-runner check on the first node appears in the trace before validation. -/
theorem c6_restart_service_checks_witness :
    (test_restart_services_trace "gluster-blockd" ["g1", "g2", "g3"] (fun _ _ => true)).2 =
      true ∧
    Action.waitServiceStatus "g1" "tcmu-runner" "active" "running" ∈
      (test_restart_services_trace "gluster-blockd" ["g1", "g2", "g3"] (fun _ _ => true)).1 := by
  obtain ⟨hok, pre, hpre, hall⟩ :=
    c6_restart_service_checks "gluster-blockd" ["g1", "g2", "g3"] (fun _ _ => true)
      (by decide) (fun _ _ => rfl)
  refine ⟨hok, ?_⟩
  rw [hpre]
  refine List.mem_append_left _ ?_
  have hm := hall "g1" (by decide) "tcmu-runner" (by decide)
  simpa using hm

/-- Entries produced by the device loop: either already present, or keyed by
this node with the free space of one of its online, big-enough devices. -/
theorem pvResizeDevLoop_mem (deviceDisableOk : String → Bool) (node_id : String)
    (devs : List HDevice) (nodes : List (String × Nat)) :
    ∀ e ∈ (pvResizeDevLoop deviceDisableOk node_id devs nodes).1, e ∈ nodes ∨
      (e.1 = node_id ∧ ∃ d ∈ devs,
        pyLower d.state = "online" ∧ min_free_space ≤ d.storage_free ∧
        e.2 = d.storage_free) := by
  induction devs generalizing nodes with
  | nil =>
    intro e he
    exact Or.inl he
  | cons device rest ih =>
    intro e he
    rw [pvResizeDevLoop] at he
    by_cases hon : pyLower device.state = "online"
    · rw [if_neg (by simpa using hon)] at he
      by_cases hskip : node_id ∈ nodes.map Prod.fst ∨ device.storage_free < min_free_space
      · rw [if_pos hskip] at he
        by_cases hok : deviceDisableOk device.id
        · rw [if_pos hok] at he
          dsimp only at he
          rcases ih nodes e he with h | ⟨h1, d, hd, hds⟩
          · exact Or.inl h
          · exact Or.inr ⟨h1, d, List.mem_cons_of_mem device hd, hds⟩
        · rw [if_neg hok] at he
          exact Or.inl he
      · rw [if_neg hskip] at he
        rcases ih (nodes ++ [(node_id, device.storage_free)]) e he with h | ⟨h1, d, hd, hds⟩
        · rcases List.mem_append.mp h with h' | h'
          · exact Or.inl h'
          · have he' : e = (node_id, device.storage_free) := by simpa using h'
            push_neg at hskip
            refine Or.inr ⟨by rw [he'], device, List.mem_cons_self device rest,
              hon, hskip.2, by rw [he']⟩
        · exact Or.inr ⟨h1, d, List.mem_cons_of_mem device hd, hds⟩
    · rw [if_pos (by simpa using hon)] at he
      rcases ih nodes e he with h | ⟨h1, d, hd, hds⟩
      · exact Or.inl h
      · exact Or.inr ⟨h1, d, List.mem_cons_of_mem device hd, hds⟩

/-- Entries produced by the node loop: either already present, or an online
node with an online device of at least `min_free_space` free, recorded with
that device's free space. -/
theorem pvResizeNodeLoop_mem (nodeDisableOk deviceDisableOk : String → Bool)
    (info : String → HNodeInfo) (ids : List String) (nodes : List (String × Nat)) :
    ∀ e ∈ (pvResizeNodeLoop nodeDisableOk deviceDisableOk info ids nodes).1, e ∈ nodes ∨
      (pyLower (info e.1).state = "online" ∧
       ∃ d ∈ (info e.1).devices,
         pyLower d.state = "online" ∧ min_free_space ≤ d.storage_free ∧
         e.2 = d.storage_free) := by
  induction ids generalizing nodes with
  | nil =>
    intro e he
    exact Or.inl he
  | cons node_id rest ih =>
    intro e he
    rw [pvResizeNodeLoop] at he
    by_cases hskip : pyLower (info node_id).state ≠ "online" ∨ (info node_id).devices = []
    · rw [if_pos hskip] at he
      exact ih nodes e he
    · rw [if_neg hskip] at he
      push_neg at hskip
      by_cases habort : nodes.length > 2 ∧ nodeDisableOk node_id = false
      · rw [if_pos habort] at he
        exact Or.inl he
      · rw [if_neg habort] at he
        dsimp only at he
        by_cases hdev : (pvResizeDevLoop deviceDisableOk node_id (info node_id).devices nodes).2.2
        · rw [if_pos hdev] at he
          dsimp only at he
          rcases ih (pvResizeDevLoop deviceDisableOk node_id (info node_id).devices nodes).1
              e he with h | h
          · rcases pvResizeDevLoop_mem deviceDisableOk node_id (info node_id).devices nodes
                e h with h' | ⟨h1, hd⟩
            · exact Or.inl h'
            · refine Or.inr ?_
              rw [h1]
              exact ⟨hskip.1, hd⟩
          · exact Or.inr h
        · rw [if_neg hdev] at he
          dsimp only at he
          rcases pvResizeDevLoop_mem deviceDisableOk node_id (info node_id).devices nodes
              e he with h' | ⟨h1, hd⟩
          · exact Or.inl h'
          · refine Or.inr ?_
            rw [h1]
            exact ⟨hskip.1, hd⟩

/-- A lower bound on all elements is a lower bound on the running minimum. -/
theorem pyListMin_foldl_ge (c : Nat) (vs : List Nat) (acc : Nat)
    (hacc : c ≤ acc) (h : ∀ x ∈ vs, c ≤ x) : c ≤ vs.foldl Nat.min acc := by
  induction vs generalizing acc with
  | nil => exact hacc
  | cons x xs ih =>
    rw [List.foldl_cons]
    exact ih (Nat.min acc x) (le_min hacc (h x (List.mem_cons_self x xs)))
      (fun y hy => h y (List.mem_cons_of_mem x hy))

/-- A lower bound on all elements of a non-empty list bounds `pyListMin`. -/
theorem pyListMin_ge (c : Nat) (l : List Nat) (hne : l ≠ [])
    (h : ∀ x ∈ l, c ≤ x) : c ≤ pyListMin l := by
  rcases l with _ | ⟨v, vs⟩
  · exact absurd rfl hne
  · exact pyListMin_foldl_ge c vs v (h v (List.mem_cons_self v vs))
      (fun y hy => h y (List.mem_cons_of_mem v hy))

/-- C5: `_pv_resize` selects into `nodes` only online nodes having an online
device with at least `3*1024^2` KB free (recording such a device's free
space); given a non-empty heketi node list and no mid-loop disable-assertion
failure, it skips exactly when fewer than three nodes were selected, and
otherwise the computed maximum PVC size is
`int(min(nodes.values()) / 1024**2)`, which is at least 3 Gb. -/
theorem c5_pv_resize_selection (nodeDisableOk deviceDisableOk : String → Bool)
    (info : String → HNodeInfo) (node_id_list : List String) :
    (∀ e ∈ (pvResizeNodeLoop nodeDisableOk deviceDisableOk info node_id_list []).1,
       pyLower (info e.1).state = "online" ∧
       ∃ d ∈ (info e.1).devices,
         pyLower d.state = "online" ∧ min_free_space ≤ d.storage_free ∧
         e.2 = d.storage_free) ∧
    (node_id_list ≠ [] →
      (pvResizeNodeLoop nodeDisableOk deviceDisableOk info node_id_list []).2.2 = true →
      (pv_resize_outcome nodeDisableOk deviceDisableOk info node_id_list =
          PvSelectOutcome.skipped ↔
        (pvResizeNodeLoop nodeDisableOk deviceDisableOk info node_id_list []).1.length < 3)) ∧
    (∀ m, pv_resize_outcome nodeDisableOk deviceDisableOk info node_id_list =
        PvSelectOutcome.available m →
      m = pyListMin ((pvResizeNodeLoop nodeDisableOk deviceDisableOk info
        node_id_list []).1.map Prod.snd) / 1024 ^ 2 ∧
      3 ≤ m) := by
  have hmem : ∀ e ∈ (pvResizeNodeLoop nodeDisableOk deviceDisableOk info node_id_list []).1,
      pyLower (info e.1).state = "online" ∧
      ∃ d ∈ (info e.1).devices,
        pyLower d.state = "online" ∧ min_free_space ≤ d.storage_free ∧
        e.2 = d.storage_free := by
    intro e he
    rcases pvResizeNodeLoop_mem nodeDisableOk deviceDisableOk info node_id_list [] e he
        with h | h
    · exact absurd h (List.not_mem_nil e)
    · exact h
  refine ⟨hmem, ?_, ?_⟩
  · intro hne hcomplete
    unfold pv_resize_outcome
    rw [if_neg hne]
    dsimp only
    rw [if_neg (by simp [hcomplete])]
    by_cases hlen :
        (pvResizeNodeLoop nodeDisableOk deviceDisableOk info node_id_list []).1.length < 3
    · rw [if_pos hlen]
      simp [hlen]
    · rw [if_neg hlen]
      simp [hlen]
  · intro m hm
    unfold pv_resize_outcome at hm
    by_cases hne : node_id_list = []
    · rw [if_pos hne] at hm
      exact absurd hm (by simp)
    · rw [if_neg hne] at hm
      dsimp only at hm
      by_cases hfail :
          (pvResizeNodeLoop nodeDisableOk deviceDisableOk info node_id_list []).2.2 = false
      · rw [if_pos hfail] at hm
        exact absurd hm (by simp)
      · rw [if_neg hfail] at hm
        by_cases hlen :
            (pvResizeNodeLoop nodeDisableOk deviceDisableOk info node_id_list []).1.length < 3
        · rw [if_pos hlen] at hm
          exact absurd hm (by simp)
        · rw [if_neg hlen] at hm
          have hm' : pyListMin ((pvResizeNodeLoop nodeDisableOk deviceDisableOk info
              node_id_list []).1.map Prod.snd) / 1024 ^ 2 = m := by
            injection hm
          refine ⟨hm'.symm, ?_⟩
          rw [← hm']
          rw [Nat.le_div_iff_mul_le (by norm_num)]
          refine pyListMin_ge (3 * 1024 ^ 2) _ ?_ ?_
          · intro hmapnil
            rw [List.map_eq_nil_iff] at hmapnil
            rw [hmapnil] at hlen
            exact hlen (by simp)
          · intro x hx
            rw [List.mem_map] at hx
            obtain ⟨e, he, hex⟩ := hx
            obtain ⟨-, d, -, -, hfree, hed⟩ := hmem e he
            rw [← hex, hed]
            exact hfree

/-- C5, witness: three online single-device nodes with 4 Gb free each, all
disable calls succeeding, yield an available size of 4 Gb, at least 3. -/
theorem c5_pv_resize_selection_witness :
    pv_resize_outcome (fun _ => true) (fun _ => true)
      (fun _ => { state := "online",
                  devices := [{ id := "d", state := "online",
                                storage_free := 4 * 1024 ^ 2 }] })
      ["n1", "n2", "n3"] = PvSelectOutcome.available 4 ∧ 3 ≤ 4 := by
  have h := (c5_pv_resize_selection (fun _ => true) (fun _ => true)
    (fun _ => { state := "online",
                devices := [{ id := "d", state := "online",
                              storage_free := 4 * 1024 ^ 2 }] })
    ["n1", "n2", "n3"]).2.2 4 (by decide)
  exact ⟨by decide, h.2⟩

/-- The id/name collection loop of `get_heketi_block_volumes`, with an
arbitrary starting accumulator: it appends the stripped first and third
capture groups of each matching line. -/
theorem get_blockvol_foldl_general (pre : String) (lines : List String)
    (acc : List String × List String) :
    lines.foldl
      (fun (acc : List String × List String) block_vol =>
        match matchBlockVolLine pre (pyStrip block_vol) with
        | some m => (acc.1 ++ [pyStrip m.1], acc.2 ++ [pyStrip m.2.2])
        | none => acc)
      acc =
    (acc.1 ++ (lines.filterMap (fun l => matchBlockVolLine pre (pyStrip l))).map
        (fun m => pyStrip m.1),
     acc.2 ++ (lines.filterMap (fun l => matchBlockVolLine pre (pyStrip l))).map
        (fun m => pyStrip m.2.2)) := by
  induction lines generalizing acc with
  | nil => simp
  | cons l ls ih =>
    rw [List.foldl_cons, List.filterMap_cons]
    cases hm : matchBlockVolLine pre (pyStrip l) with
    | none =>
      rw [ih]
    | some m =>
      rw [ih]
      simp [hm]

/-- C10: `get_heketi_block_volumes` returns two lists of equal length, each
sorted ascending, whose elements are exactly (up to the sorting permutation)
the stripped group-1 ids and the stripped group-3 names of the output lines
matching the run-prefix regex; non-matching lines contribute nothing. -/
theorem c10_get_heketi_block_volumes_sorted (pre heketi_cmd_out : String)
    (r : List String × List String)
    (hr : get_heketi_block_volumes pre heketi_cmd_out = some r) :
    r.1.length = r.2.length ∧
    List.Sorted pyStrLe r.1 ∧ List.Sorted pyStrLe r.2 ∧
    r.1.Perm ((matchedBlockVolLines pre heketi_cmd_out).map (fun m => pyStrip m.1)) ∧
    r.2.Perm ((matchedBlockVolLines pre heketi_cmd_out).map (fun m => pyStrip m.2.2)) := by
  unfold get_heketi_block_volumes at hr
  by_cases hne : heketi_cmd_out = ""
  · rw [if_pos hne] at hr
    exact absurd hr (by simp)
  · rw [if_neg hne] at hr
    simp only [get_blockvol_foldl_general, List.nil_append, Option.some.injEq] at hr
    have hperm1 : r.1.Perm ((matchedBlockVolLines pre heketi_cmd_out).map
        (fun m => pyStrip m.1)) := by
      rw [← hr]
      exact List.perm_insertionSort pyStrLe _
    have hperm2 : r.2.Perm ((matchedBlockVolLines pre heketi_cmd_out).map
        (fun m => pyStrip m.2.2)) := by
      rw [← hr]
      exact List.perm_insertionSort pyStrLe _
    refine ⟨?_, ?_, ?_, hperm1, hperm2⟩
    · rw [hperm1.length_eq, hperm2.length_eq, List.length_map, List.length_map]
    · rw [← hr]
      exact List.sorted_insertionSort pyStrLe _
    · rw [← hr]
      exact List.sorted_insertionSort pyStrLe _

/-- C10, witness: a two-line listing with ids `b2`, `a1` and names `v2`, `v1`
yields both lists sorted ascending and of equal length. -/
theorem c10_get_heketi_block_volumes_sorted_witness :
    (["a1", "b2"] : List String).length = (["v1", "v2"] : List String).length ∧
    List.Sorted pyStrLe ["a1", "b2"] := by
  have h := c10_get_heketi_block_volumes_sorted "p"
    "Id:b2 Cluster:c Name:p_v2\nId:a1 Cluster:c Name:p_v1"
    (["a1", "b2"], ["v1", "v2"]) (by decide)
  exact ⟨h.1, h.2.1⟩

/-- Actions requiring no cleanup satisfy the amended coverage trivially. -/
theorem claimC1Amended_of_none (t : List Action)
    (h : ∀ a ∈ t, requiredCleanup a = none) : claimC1Amended t := by
  intro a ha
  unfold coveredAmendedB
  rw [h a ha]
  rfl

/-- Amended satisfaction is monotone under trace extension. -/
theorem satisfiedAmendedB_mono {t t' : List Action} (hsub : ∀ x ∈ t, x ∈ t')
    {c : CleanupOp} (h : satisfiedAmendedB t c = true) : satisfiedAmendedB t' c = true := by
  cases c <;>
    simp only [satisfiedAmendedB, Bool.or_eq_true, decide_eq_true_eq] at h ⊢ <;>
    first
      | exact h.imp (fun hh => hsub _ hh) (fun hh => hsub _ hh)
      | exact hsub _ h

/-- Amended coverage is monotone under trace extension. -/
theorem coveredAmendedB_mono {t t' : List Action} (hsub : ∀ x ∈ t, x ∈ t')
    {a : Action} (h : coveredAmendedB t a = true) : coveredAmendedB t' a = true := by
  unfold coveredAmendedB at h ⊢
  cases hrc : requiredCleanup a with
  | none => rfl
  | some c =>
    rw [hrc] at h
    exact satisfiedAmendedB_mono hsub h

/-- Amended discipline is closed under concatenation. -/
theorem claimC1Amended_append {t1 t2 : List Action}
    (h1 : claimC1Amended t1) (h2 : claimC1Amended t2) :
    claimC1Amended (t1 ++ t2) := by
  intro a ha
  rcases List.mem_append.mp ha with h | h
  · exact coveredAmendedB_mono (fun x hx => List.mem_append_left _ hx) (h1 a h)
  · exact coveredAmendedB_mono (fun x hx => List.mem_append_right _ hx) (h2 a h)

/-- Amended discipline is preserved by sequencing. -/
theorem claimC1Amended_andThen {x y : List Action × Bool}
    (hx : claimC1Amended x.1) (hy : claimC1Amended y.1) :
    claimC1Amended (andThen x y).1 := by
  unfold andThen
  by_cases h : x.2
  · rw [if_pos h]
    exact claimC1Amended_append hx hy
  · rw [if_neg h]
    exact hx

/-- A device disable immediately followed by its `addCleanup` re-enable. -/
theorem claimC1Amended_device_pair (id : String) :
    claimC1Amended [Action.disableDevice id, Action.addCleanup (CleanupOp.enableDevice id)] := by
  intro a ha
  rcases List.mem_cons.mp ha with rfl | ha'
  · simp [coveredAmendedB, requiredCleanup, satisfiedAmendedB]
  · rcases List.mem_cons.mp ha' with rfl | ha''
    · simp [coveredAmendedB, requiredCleanup]
    · exact absurd ha'' (List.not_mem_nil a)

/-- A node disable immediately followed by its `addCleanup` re-enable. -/
theorem claimC1Amended_node_pair (id : String) :
    claimC1Amended [Action.disableNode id, Action.addCleanup (CleanupOp.enableNode id)] := by
  intro a ha
  rcases List.mem_cons.mp ha with rfl | ha'
  · simp [coveredAmendedB, requiredCleanup, satisfiedAmendedB]
  · rcases List.mem_cons.mp ha' with rfl | ha''
    · simp [coveredAmendedB, requiredCleanup]
    · exact absurd ha'' (List.not_mem_nil a)

/-- Repeating a disciplined chunk keeps the discipline. -/
theorem claimC1Amended_flatMap_const {β : Type} (l : List β) (chunk : List Action)
    (h : claimC1Amended chunk) : claimC1Amended (l.flatMap (fun _ => chunk)) := by
  induction l with
  | nil =>
    intro a ha
    exact absurd ha (by simp)
  | cons x xs ih =>
    rw [List.flatMap_cons]
    exact claimC1Amended_append h ih

/-- The (stale-variable) node-disabling section always pairs each disable with
an `addCleanup` re-enable of the same id it disabled. -/
theorem claimC1Amended_disableExtraNodes (l : List String) :
    claimC1Amended (disableExtraNodesSection l) := by
  unfold disableExtraNodesSection
  by_cases hlen : l.length > 3
  · rw [if_pos hlen]
    cases hg : (l.take 3).getLast? with
    | none =>
      intro a ha
      exact absurd ha (by simp)
    | some node_id =>
      exact claimC1Amended_flatMap_const _ _ (claimC1Amended_node_pair node_id)
  · rw [if_neg hlen]
    intro a ha
    exact absurd ha (by simp)

/-- A volume creation guarded by `assertTrue` and followed by its cleanup. -/
theorem claimC1Amended_createVol (vol : Option HVol) :
    claimC1Amended (createVolWithCleanup vol).1 := by
  cases vol with
  | none =>
    apply claimC1Amended_of_none
    intro a ha
    rcases List.mem_singleton.mp ha with rfl
    rfl
  | some v =>
    intro a ha
    rcases List.mem_cons.mp ha with rfl | ha'
    · simp [coveredAmendedB, requiredCleanup, satisfiedAmendedB, createVolWithCleanup]
    · rcases List.mem_cons.mp ha' with rfl | ha''
      · simp [coveredAmendedB, requiredCleanup]
      · exact absurd ha'' (List.not_mem_nil a)

/-- The device-disable loop of the disabling-device test keeps the
discipline. -/
theorem claimC1Amended_disableDevicesWithCleanup (ok : String → Bool) (ds : List HDevice) :
    claimC1Amended (disableDevicesWithCleanup ok ds).1 := by
  induction ds with
  | nil =>
    intro a ha
    exact absurd ha (by simp [disableDevicesWithCleanup])
  | cons d rest ih =>
    rw [disableDevicesWithCleanup]
    by_cases h : ok d.id
    · rw [if_pos h]
      exact claimC1Amended_andThen (claimC1Amended_device_pair d.id) ih
    · rw [if_neg h]
      apply claimC1Amended_of_none
      intro a ha
      rcases List.mem_singleton.mp ha with rfl
      rfl

/-- The second-and-further-devices section keeps the discipline. -/
theorem claimC1Amended_disableSecondDevices (ok : String → Bool) (nis : List HNodeInfo) :
    claimC1Amended (disableSecondDevicesSection ok nis).1 := by
  induction nis with
  | nil =>
    intro a ha
    exact absurd ha (by simp [disableSecondDevicesSection])
  | cons ni rest ih =>
    rw [disableSecondDevicesSection]
    cases ni.devices with
    | nil =>
      apply claimC1Amended_of_none
      intro a ha
      rcases List.mem_singleton.mp ha with rfl
      rfl
    | cons d0 ds =>
      dsimp only
      by_cases h0 : pyLower (pyStrip d0.state) ≠ "online"
      · rw [if_pos h0]
        apply claimC1Amended_of_none
        intro a ha
        rcases List.mem_singleton.mp ha with rfl
        rfl
      · rw [if_neg h0]
        by_cases hds : ds = []
        · rw [if_pos hds]
          exact ih
        · rw [if_neg hds]
          exact claimC1Amended_andThen (claimC1Amended_disableDevicesWithCleanup ok ds) ih

/-- The `try` body keeps the discipline (the unexpected volume, if created,
gets its `addCleanup` before `assert False`). -/
theorem claimC1Amended_disablingTryBody (env : DisablingEnv) :
    claimC1Amended (disablingTryBody env).1 := by
  unfold disablingTryBody
  apply claimC1Amended_andThen
  · cases env.devInfo1 with
    | none =>
      apply claimC1Amended_of_none
      intro a ha
      rcases List.mem_singleton.mp ha with rfl
      rfl
    | some di =>
      dsimp only
      by_cases h : pyStrip (pyLower di.state) ≠ "offline"
      · rw [if_pos h]
        apply claimC1Amended_of_none
        intro a ha
        rcases List.mem_singleton.mp ha with rfl
        rfl
      · rw [if_neg h]
        intro a ha
        exact absurd ha (by simp)
  · cases env.vol2 with
    | none =>
      intro a ha
      exact absurd ha (by simp)
    | some v =>
      intro a ha
      rcases List.mem_cons.mp ha with rfl | ha'
      · simp [coveredAmendedB, requiredCleanup, satisfiedAmendedB]
      · rcases List.mem_cons.mp ha' with rfl | ha''
        · simp [coveredAmendedB, requiredCleanup]
        · rcases List.mem_singleton.mp ha'' with rfl
          simp [coveredAmendedB, requiredCleanup]

/-- The post-`finally` tail keeps the discipline. -/
theorem claimC1Amended_disablingTail (env : DisablingEnv) :
    claimC1Amended (disablingTailSection env).1 := by
  unfold disablingTailSection
  apply claimC1Amended_andThen
  · cases env.devInfo2 with
    | none =>
      apply claimC1Amended_of_none
      intro a ha
      rcases List.mem_singleton.mp ha with rfl
      rfl
    | some di =>
      dsimp only
      by_cases h : di.state ≠ "online"
      · rw [if_pos h]
        apply claimC1Amended_of_none
        intro a ha
        rcases List.mem_singleton.mp ha with rfl
        rfl
      · rw [if_neg h]
        intro a ha
        exact absurd ha (by simp)
  · apply claimC1Amended_andThen (claimC1Amended_createVol env.vol3)
    apply claimC1Amended_of_none
    intro a ha
    rcases List.mem_singleton.mp ha with rfl
    rfl

/-- A disable at the head of a trace that re-enables the same device later
(e.g. in a `finally`) satisfies the amended discipline. -/
theorem claimC1Amended_cons_disable (d : String) (rest : List Action)
    (hmem : Action.enableDevice d ∈ rest)
    (hrest : claimC1Amended rest) :
    claimC1Amended (Action.disableDevice d :: rest) := by
  intro a ha
  rcases List.mem_cons.mp ha with rfl | ha'
  · simp only [coveredAmendedB, requiredCleanup, Option.all_some, satisfiedAmendedB,
      Bool.or_eq_true, decide_eq_true_eq]
    exact Or.inr (List.mem_cons_of_mem _ hmem)
  · exact coveredAmendedB_mono (fun x hx => List.mem_cons_of_mem _ hx) (hrest a ha')

/-- The disable / `try`-`finally` / tail region of the disabling-device test:
the leading device disable is covered by the `finally` re-enable. -/
theorem claimC1Amended_disable_region (d : String) (body tail : List Action × Bool)
    (hbody : claimC1Amended body.1) (htail : claimC1Amended tail.1) :
    claimC1Amended
      (andThen ([Action.disableDevice d], true)
        (andThen (tryFinallyActs body ([Action.enableDevice d], true)) tail)).1 := by
  have henable : claimC1Amended [Action.enableDevice d] := by
    apply claimC1Amended_of_none
    intro a ha
    rcases List.mem_singleton.mp ha with rfl
    rfl
  by_cases hb : body.2
  · have hU : (andThen ([Action.disableDevice d], true)
        (andThen (tryFinallyActs body ([Action.enableDevice d], true)) tail)).1 =
        Action.disableDevice d :: ((body.1 ++ [Action.enableDevice d]) ++ tail.1) := by
      simp [andThen, tryFinallyActs, hb]
    rw [hU]
    refine claimC1Amended_cons_disable d _ (by simp) ?_
    exact claimC1Amended_append (claimC1Amended_append hbody henable) htail
  · have hU : (andThen ([Action.disableDevice d], true)
        (andThen (tryFinallyActs body ([Action.enableDevice d], true)) tail)).1 =
        Action.disableDevice d :: (body.1 ++ [Action.enableDevice d]) := by
      simp [andThen, tryFinallyActs, hb]
    rw [hU]
    refine claimC1Amended_cons_disable d _ (by simp) ?_
    exact claimC1Amended_append hbody henable

/-- The `_pv_resize` device loop emits each successful device disable
together with its `addCleanup` re-enable; a failed disable aborts without
disabling anything. -/
theorem claimC1Amended_pvResizeDevLoop (deviceDisableOk : String → Bool)
    (node_id : String) (devs : List HDevice) (nodes : List (String × Nat)) :
    claimC1Amended (pvResizeDevLoop deviceDisableOk node_id devs nodes).2.1 := by
  induction devs generalizing nodes with
  | nil =>
    intro a ha
    exact absurd ha (by simp [pvResizeDevLoop])
  | cons device rest ih =>
    rw [pvResizeDevLoop]
    by_cases h1 : pyLower device.state ≠ "online"
    · rw [if_pos h1]
      exact ih nodes
    · rw [if_neg h1]
      by_cases h2 : node_id ∈ nodes.map Prod.fst ∨ device.storage_free < min_free_space
      · rw [if_pos h2]
        by_cases hok : deviceDisableOk device.id
        · rw [if_pos hok]
          dsimp only
          have hsplit : Action.disableDevice device.id ::
              Action.addCleanup (CleanupOp.enableDevice device.id) ::
              (pvResizeDevLoop deviceDisableOk node_id rest nodes).2.1 =
              [Action.disableDevice device.id,
               Action.addCleanup (CleanupOp.enableDevice device.id)] ++
              (pvResizeDevLoop deviceDisableOk node_id rest nodes).2.1 := rfl
          rw [hsplit]
          exact claimC1Amended_append (claimC1Amended_device_pair device.id) (ih nodes)
        · rw [if_neg hok]
          apply claimC1Amended_of_none
          intro a ha
          rcases List.mem_singleton.mp ha with rfl
          rfl
      · rw [if_neg h2]
        exact ih (nodes ++ [(node_id, device.storage_free)])

/-- The `_pv_resize` node loop emits each successful node disable together
with its `addCleanup` re-enable, and inherits the device-loop discipline. -/
theorem claimC1Amended_pvResizeNodeLoop (nodeDisableOk deviceDisableOk : String → Bool)
    (info : String → HNodeInfo) (ids : List String) (nodes : List (String × Nat)) :
    claimC1Amended (pvResizeNodeLoop nodeDisableOk deviceDisableOk info ids nodes).2.1 := by
  induction ids generalizing nodes with
  | nil =>
    intro a ha
    exact absurd ha (by simp [pvResizeNodeLoop])
  | cons node_id rest ih =>
    rw [pvResizeNodeLoop]
    by_cases hskip : pyLower (info node_id).state ≠ "online" ∨ (info node_id).devices = []
    · rw [if_pos hskip]
      exact ih nodes
    · rw [if_neg hskip]
      by_cases habort : nodes.length > 2 ∧ nodeDisableOk node_id = false
      · rw [if_pos habort]
        apply claimC1Amended_of_none
        intro a ha
        rcases List.mem_singleton.mp ha with rfl
        rfl
      · rw [if_neg habort]
        dsimp only
        have hhead : claimC1Amended
            (if nodes.length > 2 then
              [Action.disableNode node_id, Action.addCleanup (CleanupOp.enableNode node_id)]
            else []) := by
          by_cases hlen : nodes.length > 2
          · rw [if_pos hlen]
            exact claimC1Amended_node_pair node_id
          · rw [if_neg hlen]
            intro a ha
            exact absurd ha (by simp)
        by_cases hdev : (pvResizeDevLoop deviceDisableOk node_id (info node_id).devices
            nodes).2.2
        · rw [if_pos hdev]
          dsimp only
          exact claimC1Amended_append (claimC1Amended_append hhead
            (claimC1Amended_pvResizeDevLoop deviceDisableOk node_id (info node_id).devices
              nodes))
            (ih (pvResizeDevLoop deviceDisableOk node_id (info node_id).devices nodes).1)
        · rw [if_neg hdev]
          exact claimC1Amended_append hhead
            (claimC1Amended_pvResizeDevLoop deviceDisableOk node_id (info node_id).devices
              nodes)

/-- `_pv_resize` as a whole keeps the amended cleanup discipline. -/
theorem claimC1Amended_pv_resize_trace (e : PvResizeEnv) :
    claimC1Amended (pv_resize_trace e) := by
  unfold pv_resize_trace
  by_cases hne : e.node_id_list = []
  · rw [if_pos hne]
    apply claimC1Amended_of_none
    intro a ha
    rcases List.mem_singleton.mp ha with rfl
    rfl
  · rw [if_neg hne]
    dsimp only
    refine claimC1Amended_append
      (claimC1Amended_pvResizeNodeLoop e.nodeDisableOk e.deviceDisableOk e.info
        e.node_id_list []) ?_
    by_cases hfail : (pvResizeNodeLoop e.nodeDisableOk e.deviceDisableOk e.info
        e.node_id_list []).2.2 = false
    · rw [if_pos hfail]
      intro a ha
      exact absurd ha (by simp)
    · rw [if_neg hfail]
      by_cases hlen : (pvResizeNodeLoop e.nodeDisableOk e.deviceDisableOk e.info
          e.node_id_list []).1.length < 3
      · rw [if_pos hlen]
        apply claimC1Amended_of_none
        intro a ha
        rcases List.mem_singleton.mp ha with rfl
        rfl
      · rw [if_neg hlen]
        intro a ha
        rcases List.mem_cons.mp ha with rfl | ha'
        · simp [coveredAmendedB, requiredCleanup]
        · rcases List.mem_cons.mp ha' with rfl | ha''
          · simp [coveredAmendedB, requiredCleanup, satisfiedAmendedB]
          · rcases List.mem_cons.mp ha'' with rfl | h3
            · simp [coveredAmendedB, requiredCleanup]
            · rcases List.mem_cons.mp h3 with rfl | h4
              · simp [coveredAmendedB, requiredCleanup]
              · rcases List.mem_singleton.mp h4 with rfl
                simp [coveredAmendedB, requiredCleanup]

/-- `deploy_resouces` registers an `addCleanup` deletion for the secret, the
storage class, the PVC and the DC it creates. -/
theorem claimC1Amended_deploy_resouces (e : DeployEnv) :
    claimC1Amended (deploy_resouces_trace e) := by
  intro a ha
  unfold deploy_resouces_trace at ha
  simp only [List.mem_cons, List.not_mem_nil, or_false] at ha
  rcases ha with rfl | rfl | rfl | rfl | rfl | rfl | rfl | rfl | rfl | rfl <;>
    simp [coveredAmendedB, requiredCleanup, satisfiedAmendedB, deploy_resouces_trace]

/-- `test_create_heketi_volume` registers the deletion of the volume it
creates right after the creation assertion. -/
theorem claimC1Amended_test_create_heketi_volume (out : Option HVolCreateOut) :
    claimC1Amended (test_create_heketi_volume_trace out).1 := by
  cases out with
  | none =>
    apply claimC1Amended_of_none
    intro a ha
    rcases List.mem_singleton.mp ha with rfl
    rfl
  | some o =>
    intro a ha
    rcases List.mem_cons.mp ha with rfl | ha'
    · simp [coveredAmendedB, requiredCleanup, satisfiedAmendedB, test_create_heketi_volume_trace]
    · rcases List.mem_cons.mp ha' with rfl | ha''
      · simp [coveredAmendedB, requiredCleanup]
      · rcases List.mem_singleton.mp ha'' with rfl
        simp [coveredAmendedB, requiredCleanup]

/-- C1, amended: in `deploy_resouces`, `test_create_heketi_volume`,
`_pv_resize` and `test_create_volumes_enabling_and_disabling_heketi_devices`
(the latter provided its `finally` re-enable call succeeds), every created
resource has a deletion registered via `addCleanup`, and every disabled node
or device is either covered by an `addCleanup` re-enable or re-enabled
directly by the test body (the `try`/`finally` of the disabling test). -/
theorem c1_cleanup_discipline_amended (de : DeployEnv) (vo : Option HVolCreateOut)
    (pe : PvResizeEnv) (env : DisablingEnv) (hen : env.deviceEnableOk = true) :
    claimC1Amended (deploy_resouces_trace de) ∧
    claimC1Amended (test_create_heketi_volume_trace vo).1 ∧
    claimC1Amended (pv_resize_trace pe) ∧
    claimC1Amended (test_disabling_device_trace env).1 := by
  refine ⟨claimC1Amended_deploy_resouces de,
    claimC1Amended_test_create_heketi_volume vo,
    claimC1Amended_pv_resize_trace pe, ?_⟩
  unfold test_disabling_device_trace
  apply claimC1Amended_andThen (claimC1Amended_disableExtraNodes env.node_id_list)
  apply claimC1Amended_andThen
    (claimC1Amended_disableSecondDevices env.deviceDisableOk
      ((env.node_id_list.take 3).map env.info))
  cases hv : env.vol1 with
  | none =>
    apply claimC1Amended_of_none
    intro a ha
    rcases List.mem_singleton.mp ha with rfl
    rfl
  | some v =>
    dsimp only
    apply claimC1Amended_andThen (claimC1Amended_createVol (some v))
    by_cases hd : env.deviceDisableOk v.brickDevice
    · rw [if_pos hd, hen]
      rw [show disablingFinallySection true v.brickDevice =
        ([Action.enableDevice v.brickDevice], true) from rfl]
      exact claimC1Amended_disable_region v.brickDevice _ _
        (claimC1Amended_disablingTryBody env) (claimC1Amended_disablingTail env)
    · rw [if_neg hd]
      apply claimC1Amended_of_none
      intro a ha
      rcases List.mem_singleton.mp ha with rfl
      rfl

/-- C1, amended, witness: concrete environments for all four tests. -/
theorem c1_cleanup_discipline_amended_witness :
    claimC1Amended (deploy_resouces_trace
      { secretname := "sec", sc_name := "sc1", pvc_name := "pvc1", dc_name := "dc1" }) ∧
    claimC1Amended (test_disabling_device_trace
      { node_id_list := ["n1", "n2", "n3"],
        info := fun n =>
          { state := "online",
            devices := [{ id := "dev-" ++ n, state := "online", storage_free := 0 }] },
        deviceDisableOk := fun _ => true,
        vol1 := some { brickDevice := "dev-n1", brickVolume := "v1", name := "vol1" },
        devInfo1 := some { name := "dname", state := "offline" },
        vol2 := none,
        deviceEnableOk := true,
        devInfo2 := some { name := "dname", state := "online" },
        vol3 := some { brickDevice := "dev-n2", brickVolume := "v3", name := "vol3" } }).1 := by
  have h := c1_cleanup_discipline_amended
    { secretname := "sec", sc_name := "sc1", pvc_name := "pvc1", dc_name := "dc1" }
    (some { name := "vol", id := "vid" })
    { info := fun _ => { state := "online", devices := [] },
      node_id_list := ["n1"], nodeDisableOk := fun _ => true,
      deviceDisableOk := fun _ => true, dc_name := "dc2" }
    { node_id_list := ["n1", "n2", "n3"],
      info := fun n =>
        { state := "online",
          devices := [{ id := "dev-" ++ n, state := "online", storage_free := 0 }] },
      deviceDisableOk := fun _ => true,
      vol1 := some { brickDevice := "dev-n1", brickVolume := "v1", name := "vol1" },
      devInfo1 := some { name := "dname", state := "offline" },
      vol2 := none,
      deviceEnableOk := true,
      devInfo2 := some { name := "dname", state := "online" },
      vol3 := some { brickDevice := "dev-n2", brickVolume := "v3", name := "vol3" } }
    rfl
  exact ⟨h.1, h.2.2.2⟩

/-- C1, counterexample: in the disabling-device test, the device disabled at
line 67 (`dev-n1`, the first volume's brick device) is re-enabled only inside
`try`/`finally`; no `addCleanup` re-enable is ever registered for it, so the
claim that every disabled device gets an `addCleanup` callback fails. -/
theorem c1_cleanup_strict_counterexample :
    ¬ claimC1Strict (test_disabling_device_trace
      { node_id_list := ["n1", "n2", "n3"],
        info := fun n =>
          { state := "online",
            devices := [{ id := "dev-" ++ n, state := "online", storage_free := 0 }] },
        deviceDisableOk := fun _ => true,
        vol1 := some { brickDevice := "dev-n1", brickVolume := "v1", name := "vol1" },
        devInfo1 := some { name := "dname", state := "offline" },
        vol2 := none,
        deviceEnableOk := true,
        devInfo2 := some { name := "dname", state := "online" },
        vol3 := some { brickDevice := "dev-n2", brickVolume := "v3", name := "vol3" } }).1 := by
  decide

end GlusterTests
